import Mathlib

/-!
# Verification of the dashboard probe-aggregation engine

A shallow embedding of `dashboard.py` (the concurrent probe-aggregation
engine of this repository) together with proofs about it.

Modelling conventions:
* Python strings are modelled as `List Char` where character-level
  reasoning is needed (strip/split), and as Lean `String` elsewhere.
* Python floats appearing as seconds/percentages are modelled as `ℚ`;
  Python floor division `//` is `Int.fdiv` or `Int.floor`, and `int(...)`
  (truncation toward zero) is `pyint`.
* A call into an external process either yields decoded output or raises;
  this is modelled by an explicit result type (`CmdResult`, `PingResult`).
  The `try/except` in the source corresponds to the `match` on that type.
* The shared dictionary `data` of `show_dashboard` is an association list
  (Python dicts preserve insertion order; `dict.update` on an existing
  key replaces the value in place and keeps the key position).
* Thread completion times are `Option ℕ`: `some t` means the thread body
  finishes `t` time units after start, `none` means it never finishes.
-/

namespace Dashboard

/-! ## Python primitives -/

/-- Python default whitespace test used by `str.strip()`. -/
def pyIsSpace (c : Char) : Bool := c.isWhitespace

/-- Python `str.strip()`: drop leading and trailing whitespace. -/
def pystrip (s : List Char) : List Char :=
  ((s.dropWhile pyIsSpace).reverse.dropWhile pyIsSpace).reverse

/-- Python `str.split(sep)` for a one-character separator: splitting the
empty string yields `[[]]`, i.e. one empty field, exactly as in Python. -/
def pysplit (sep : Char) (s : List Char) : List (List Char) :=
  s.foldr
    (fun c acc =>
      if c = sep then [] :: acc
      else
        match acc with
        | [] => [[c]]
        | a :: as => (c :: a) :: as)
    [[]]

/-- Python `sep.join(parts)` for a one-character separator. -/
def pyjoin (sep : Char) : List (List Char) → List Char
  | [] => []
  | [l] => l
  | l :: ls => l ++ sep :: pyjoin sep ls

/-- Python `int(q)`: truncation toward zero. -/
def pyint (q : ℚ) : ℤ := if 0 ≤ q then ⌊q⌋ else -⌊-q⌋

/-- Python string repetition `c * n`: a non-positive count gives the
empty string. -/
def pyrep (c : Char) (n : ℤ) : String := String.mk (List.replicate n.toNat c)

/-- Python `str.rjust(w)`: left-pad with spaces up to width `w`. -/
def pyrjust (s : String) (w : ℕ) : String :=
  String.mk (List.replicate (w - s.length) ' ') ++ s

/-! ## Theme constants (section 1 of `dashboard.py`) -/

def ESC : String := "\x1b["
def RESET : String := ESC ++ "0m"
def C_GRAY : String := ESC ++ "38;5;240m"
def C_GOLD : String := ESC ++ "38;5;214m"
def C_GREEN : String := ESC ++ "38;5;78m"
def C_RED : String := ESC ++ "38;5;196m"

/-! ## Helper functions (section 2 of `dashboard.py`) -/

/-- `get_relative_time`, as a function of the age
`delta = datetime.datetime.now().timestamp() - timestamp` in seconds.
The thresholds 3600 and 84600 and the divisors 60, 3600, 86400 are
transcribed verbatim from the source. -/
def get_relative_time (delta : ℚ) : String :=
  if delta < 3600 then toString ⌊delta / 60⌋ ++ "m ago"
  else if delta < 84600 then toString ⌊delta / 3600⌋ ++ "h ago"
  else toString ⌊delta / 86400⌋ ++ "d ago"

/-- Outcome of the `ping` subprocess in `check_connection`: `ok` when the
process exits with status 0, `error` when it exits non-zero (then
`subprocess.check_call` raises `CalledProcessError`) or when any other
exception occurs while launching it. -/
inductive PingResult where
  | ok : PingResult
  | error : PingResult
deriving DecidableEq

/-- `check_connection`: the bare `except:` maps every error to `False`. -/
def check_connection (ping : PingResult) : Bool :=
  match ping with
  | .ok => true
  | .error => false

/-- Outcome of the `gh` subprocess in `get_gh_data`: `ok raw` is the
decoded combined stdout/stderr of a zero-exit run, `error` is a non-zero
exit (`subprocess.check_output` raises) or any other exception. -/
inductive CmdResult where
  | ok : List Char → CmdResult
  | error : CmdResult
deriving DecidableEq

/-- `get_gh_data`: strip the output, split it on newlines if non-empty,
and map every error to the empty list via the bare `except:`. -/
def get_gh_data (res : CmdResult) : List (List Char) :=
  match res with
  | .error => []
  | .ok raw =>
    let out := pystrip raw
    if out ≠ [] then pysplit '\n' out else []

/-- One entry yielded by `PROJECT_ROOT.iterdir()`, together with the
filesystem facts `get_recent_projects` queries about it. -/
structure DirEntry where
  name : String
  is_dir : Bool
  has_git : Bool
  mtime : ℚ
deriving DecidableEq

/-- A record `{"name": ..., "time": ...}` built by `get_recent_projects`. -/
structure Project where
  name : String
  time : ℚ
deriving DecidableEq

/-- `get_recent_projects`: filter git directories, sort by mtime most
recent first (Python `list.sort` is stable and `reverse=True` keeps ties
in encounter order, as does a stable merge sort on the reversed order),
then truncate to `limit`. `entries` is the sequence of entries the
iteration yielded before finishing or raising (the bare `except: pass`
keeps the partial list). -/
def get_recent_projects (rootExists : Bool) (entries : List DirEntry)
    (limit : ℕ := 3) : List Project :=
  if !rootExists then []
  else
    let projects := (entries.filter fun e => e.is_dir && e.has_git).map
      fun e => { name := e.name, time := e.mtime }
    (projects.mergeSort fun a b => decide (b.time ≤ a.time)).take limit

/-- The fill length `int(width * percent / 100)` of `draw_bar`. -/
def fill_len (percent : ℚ) (width : ℕ) : ℤ := pyint (width * percent / 100)

/-- The colour picked by `draw_bar`. -/
def bar_color (percent : ℚ) : String :=
  if percent < 75 then C_GREEN else if percent < 90 then C_GOLD else C_RED

/-- `draw_bar`: the f-string of the source, assembled from its parts. -/
def draw_bar (percent : ℚ) (width : ℕ := 15) : String :=
  let fl := fill_len percent width
  let el : ℤ := (width : ℤ) - fl
  bar_color percent ++ pyrep '█' fl ++ C_GRAY ++ pyrep '░' el ++ RESET
    ++ " " ++ bar_color percent ++ pyrjust (toString (pyint percent)) 3
    ++ "%" ++ RESET

/-! ## The aggregator (`show_dashboard`, section 3 of `dashboard.py`)

`show_dashboard` creates the dict
`data = {"prs": [], "issues": [], "projects": [], "online": False, "handle": "..."}`,
starts five threads each of which runs one probe and stores its result
under a fixed key via `data.update({key: value})`, computes some
synchronous stats, then calls `t.join()` on every thread (with no timeout
argument) and only afterwards renders from `data`. -/

/-- The value stored in one slot of the shared `data` dict. The variants
mirror the (dynamically typed) values the five probes produce. -/
inductive Val where
  | vBool : Bool → Val
  | vStr : String → Val
  | vProjects : List Project → Val
  | vLines : List (List Char) → Val
deriving DecidableEq

/-- The shared `data` dict, as an insertion-ordered association list. -/
abbrev Dict := List (String × Val)

/-- Python `data.update({k: v})`: replace the value in place when the key
is present (keeping its position), otherwise append the pair at the end. -/
def dictUpdate (d : Dict) (kv : String × Val) : Dict :=
  if d.any fun p => p.1 = kv.1 then
    d.map fun p => if p.1 = kv.1 then kv else p
  else d ++ [kv]

/-- Python `data[k]` as an optional lookup. -/
def dictLookup (k : String) : Dict → Option Val
  | [] => none
  | (k₁, v) :: rest => if k₁ = k then some v else dictLookup k rest

/-- The initializer of `data` in `show_dashboard`, in source order. -/
def initData : Dict :=
  [("prs", .vLines []), ("issues", .vLines []), ("projects", .vProjects []),
   ("online", .vBool false), ("handle", .vStr "...")]

/-- The results the five probes return in one cycle (each probe function
is total: every error is absorbed inside it, see `check_connection` and
`get_gh_data`). -/
structure Results where
  online : Bool
  handle : String
  projects : List Project
  prs : List (List Char)
  issues : List (List Char)
deriving DecidableEq

/-- The five writes the five threads perform, in the order the `threads`
list of the source constructs them. Each thread writes its own key
exactly once. -/
def writes (r : Results) : List (String × Val) :=
  [("online", .vBool r.online), ("handle", .vStr r.handle),
   ("projects", .vProjects r.projects), ("prs", .vLines r.prs),
   ("issues", .vLines r.issues)]

/-- The state of `data` after the five threads have completed in some
interleaving `order` (a permutation of `writes r`) and `show_dashboard`
has joined all of them. Rendering reads only this final state. -/
def snapshot (order : List (String × Val)) : Dict :=
  order.foldl dictUpdate initData

/-- The final `data` dict written out explicitly, one slot per probe. -/
def finalData (r : Results) : Dict :=
  [("prs", .vLines r.prs), ("issues", .vLines r.issues),
   ("projects", .vProjects r.projects), ("online", .vBool r.online),
   ("handle", .vStr r.handle)]

/-- The instant at which the join loop `for t in threads: t.join()`
returns, given each thread's completion instant (`none` = the thread
never finishes). The loop returns once every thread has finished, i.e.
at the maximum completion instant, and never returns if any thread never
finishes. The source passes no timeout to `t.join()`. -/
def joinAll (lats : List (Option ℕ)) : Option ℕ :=
  lats.foldl
    (fun acc l =>
      match acc, l with
      | some a, some b => some (max a b)
      | _, _ => none)
    (some 0)

/-- Completion instant of the wait phase of one `show_dashboard` cycle,
from the completion instants of its five probe threads (listed in the
source order of the `threads` list). -/
def cycleCompletion (online handle projects prs issues : Option ℕ) :
    Option ℕ :=
  joinAll [online, handle, projects, prs, issues]

/-- The cycle's wait phase completes within `bound` time units. -/
def completesWithin (c : Option ℕ) (bound : ℕ) : Prop :=
  ∃ t, c = some t ∧ t ≤ bound

/-- The synchronisation discipline of one writer thread of
`show_dashboard`: which key it writes and which mutual-exclusion
primitives it holds while writing. -/
structure ThreadSpec where
  key : String
  heldLocks : List String
deriving DecidableEq

/-- The five threads of `show_dashboard`, transcribed from the `threads`
list. Each target is a bare `data.update({...})`: no `threading.Lock`
(or any other synchronisation primitive) appears anywhere in
`dashboard.py`, so every `heldLocks` is empty. -/
def show_dashboard_threads : List ThreadSpec :=
  [⟨"online", []⟩, ⟨"handle", []⟩, ⟨"projects", []⟩, ⟨"prs", []⟩,
   ⟨"issues", []⟩]

/-- The claim of spec section 9: every write into the shared container
happens under an explicit lock, or a single-writer discipline is used
(all writes issued from at most one thread). -/
def mutualExclusionClaim : Prop :=
  (∀ t ∈ show_dashboard_threads, t.heldLocks ≠ []) ∨
    show_dashboard_threads.length ≤ 1

instance : Decidable mutualExclusionClaim := by
  unfold mutualExclusionClaim; infer_instance

/-! ## Helper lemmas -/

theorem dictUpdate_of_mem (d : Dict) (kv : String × Val)
    (h : kv.1 ∈ d.map Prod.fst) :
    dictUpdate d kv = d.map fun p => if p.1 = kv.1 then kv else p := by
  unfold dictUpdate
  rw [if_pos]
  rw [List.any_eq_true]
  obtain ⟨p, hp, hfst⟩ := List.mem_map.mp h
  exact ⟨p, hp, by simp [hfst]⟩

theorem keys_dictUpdate (d : Dict) (kv : String × Val)
    (h : kv.1 ∈ d.map Prod.fst) :
    (dictUpdate d kv).map Prod.fst = d.map Prod.fst := by
  rw [dictUpdate_of_mem d kv h, List.map_map]
  apply List.map_congr_left
  intro p _
  by_cases hc : p.1 = kv.1 <;> simp [Function.comp, hc]

theorem dictUpdate_comm (d : Dict) (a b : String × Val)
    (ha : a.1 ∈ d.map Prod.fst) (hb : b.1 ∈ d.map Prod.fst)
    (hne : a.1 ≠ b.1) :
    dictUpdate (dictUpdate d a) b = dictUpdate (dictUpdate d b) a := by
  have ha2 : a.1 ∈ (dictUpdate d b).map Prod.fst := by
    rw [keys_dictUpdate d b hb]; exact ha
  have hb2 : b.1 ∈ (dictUpdate d a).map Prod.fst := by
    rw [keys_dictUpdate d a ha]; exact hb
  rw [dictUpdate_of_mem (dictUpdate d a) b hb2,
    dictUpdate_of_mem (dictUpdate d b) a ha2,
    dictUpdate_of_mem d a ha, dictUpdate_of_mem d b hb,
    List.map_map, List.map_map]
  apply List.map_congr_left
  intro p _
  have hne2 : b.1 ≠ a.1 := fun e => hne e.symm
  by_cases h1 : p.1 = a.1 <;> by_cases h2 : p.1 = b.1
  · exact absurd (h1 ▸ h2) hne
  · simp [Function.comp, h1, h2, hne, hne2]
  · simp [Function.comp, h1, h2, hne, hne2]
  · simp [Function.comp, h1, h2]

theorem foldl_dictUpdate_perm :
    ∀ {l₁ l₂ : List (String × Val)}, l₁.Perm l₂ →
    ∀ d : Dict, (l₁.map Prod.fst).Nodup →
    (∀ kv ∈ l₁, kv.1 ∈ d.map Prod.fst) →
    l₁.foldl dictUpdate d = l₂.foldl dictUpdate d := by
  intro l₁ l₂ hp
  induction hp with
  | nil => intro d _ _; rfl
  | cons x p ih =>
    intro d hnd hm
    simp only [List.foldl_cons]
    refine ih _ ?_ ?_
    · simp only [List.map_cons, List.nodup_cons] at hnd
      exact hnd.2
    · intro kv hkv
      rw [keys_dictUpdate d x (hm x (List.mem_cons_self x _))]
      exact hm kv (List.mem_cons_of_mem x hkv)
  | swap x y t =>
    intro d hnd hm
    simp only [List.foldl_cons]
    have hxy : y.1 ≠ x.1 := by
      simp only [List.map_cons, List.nodup_cons, List.mem_cons] at hnd
      exact fun e => hnd.1 (Or.inl e)
    rw [dictUpdate_comm d y x (hm y (by simp)) (hm x (by simp)) hxy]
  | trans p₁ p₂ ih₁ ih₂ =>
    intro d hnd hm
    rw [ih₁ d hnd hm]
    refine ih₂ d ?_ ?_
    · exact (p₁.map Prod.fst).nodup_iff.mp hnd
    · intro kv hkv
      exact hm kv (p₁.symm.subset hkv)

theorem snapshot_eq_finalData (r : Results) (order : List (String × Val))
    (h : order.Perm (writes r)) : snapshot order = finalData r := by
  have hw : ((writes r).map Prod.fst).Nodup := by
    have hkeys : (writes r).map Prod.fst =
        ["online", "handle", "projects", "prs", "issues"] := rfl
    rw [hkeys]
    decide
  have hnd : (order.map Prod.fst).Nodup :=
    (h.map Prod.fst).nodup_iff.mpr hw
  have hm : ∀ kv ∈ order, kv.1 ∈ initData.map Prod.fst := by
    intro kv hkv
    have hkw : kv ∈ writes r := h.subset hkv
    simp only [writes, List.mem_cons, List.not_mem_nil, or_false] at hkw
    rcases hkw with h1 | h1 | h1 | h1 | h1 <;> subst h1 <;> simp [initData]
  calc snapshot order = (writes r).foldl dictUpdate initData :=
        foldl_dictUpdate_perm h initData hnd hm
    _ = finalData r := rfl

theorem pysplit_step (sep c : Char) (t : List Char) :
    pysplit sep (c :: t) =
      if c = sep then [] :: pysplit sep t
      else
        match pysplit sep t with
        | [] => [[c]]
        | a :: as => (c :: a) :: as := rfl

theorem pysplit_ne_nil (sep : Char) (s : List Char) : pysplit sep s ≠ [] := by
  induction s with
  | nil => simp [pysplit]
  | cons c t ih =>
    rw [pysplit_step]
    rcases h : pysplit sep t with _ | ⟨a, as⟩
    · exact absurd h ih
    · by_cases hc : c = sep <;> simp [hc]

theorem pyjoin_cons_head (sep c : Char) (a : List Char)
    (as : List (List Char)) :
    pyjoin sep ((c :: a) :: as) = c :: pyjoin sep (a :: as) := by
  cases as <;> rfl

theorem pyjoin_pysplit (sep : Char) (s : List Char) :
    pyjoin sep (pysplit sep s) = s := by
  induction s with
  | nil => rfl
  | cons c t ih =>
    rcases h : pysplit sep t with _ | ⟨a, as⟩
    · exact absurd h (pysplit_ne_nil sep t)
    · by_cases hc : c = sep
      · rw [pysplit_step, if_pos hc, h]
        show sep :: pyjoin sep (a :: as) = c :: t
        rw [← h, ih, hc]
      · rw [pysplit_step, if_neg hc, h, pyjoin_cons_head, ← h, ih]

end Dashboard

namespace Dashboard

/-! ## Claim theorems -/

/-- C9: in `get_relative_time`, an age of at least 3600 and under 84600
seconds renders as hours (`delta // 3600`), an age of at least 84600
seconds renders as days (`delta // 86400`), and in particular every age
in `[84600, 86400)` renders as `0d ago` (the hour branch cuts off at
84600, not 86400, so a 23.5-hour-old item already falls into the day
branch with zero whole days). -/
theorem get_relative_time_ranges (delta : ℚ) :
    (3600 ≤ delta → delta < 84600 →
      get_relative_time delta = toString ⌊delta / 3600⌋ ++ "h ago") ∧
    (84600 ≤ delta →
      get_relative_time delta = toString ⌊delta / 86400⌋ ++ "d ago") ∧
    (84600 ≤ delta → delta < 86400 → get_relative_time delta = "0d ago") := by
  refine ⟨fun h1 h2 => ?_, fun h1 => ?_, fun h1 h2 => ?_⟩
  · unfold get_relative_time
    rw [if_neg (by linarith), if_pos h2]
  · unfold get_relative_time
    rw [if_neg (by linarith), if_neg (by linarith)]
  · unfold get_relative_time
    rw [if_neg (by linarith), if_neg (by linarith)]
    have h0 : ⌊delta / 86400⌋ = 0 := by
      rw [Int.floor_eq_zero_iff]
      constructor
      · positivity
      · rw [div_lt_one (by norm_num)]
        linarith
    rw [h0]
    rfl

/-- Witness for C9 at a concrete age of 85000 seconds. -/
theorem get_relative_time_ranges_witness :
    get_relative_time 85000 = "0d ago" :=
  (get_relative_time_ranges 85000).2.2 (by norm_num) (by norm_num)

/-- C2 (supporting theorem for the code bug): `get_gh_data` returns the
very same value, the empty list, both when the external query fails
(non-zero exit raising inside `subprocess.check_output`) and when it
succeeds with empty output; the rendered snapshot therefore cannot
distinguish an `Empty` probe outcome from a `Failure` one. -/
theorem get_gh_data_empty_eq_failure :
    get_gh_data (.ok []) = [] ∧ get_gh_data .error = [] ∧
      get_gh_data (.ok []) = get_gh_data .error := by
  refine ⟨rfl, rfl, rfl⟩

/-- C10: for every percent in `[0, 100]`, `draw_bar` renders exactly
`width` cells: `int(width * percent / 100)` filled cells followed by the
remaining empty cells, coloured green below 75, gold from 75 up to but
excluding 90, and red from 90 on. -/
theorem draw_bar_cells (p : ℚ) (w : ℕ) (h0 : 0 ≤ p) (h1 : p ≤ 100) :
    (fill_len p w).toNat ≤ w ∧
    (fill_len p w).toNat + (w - (fill_len p w).toNat) = w ∧
    draw_bar p w =
      bar_color p ++ String.mk (List.replicate (fill_len p w).toNat '█')
        ++ C_GRAY
        ++ String.mk (List.replicate (w - (fill_len p w).toNat) '░')
        ++ RESET ++ " " ++ bar_color p ++ pyrjust (toString (pyint p)) 3
        ++ "%" ++ RESET ∧
    (p < 75 → bar_color p = C_GREEN) ∧
    (75 ≤ p → p < 90 → bar_color p = C_GOLD) ∧
    (90 ≤ p → bar_color p = C_RED) := by
  have hq0 : (0 : ℚ) ≤ (w : ℚ) * p / 100 := by positivity
  have hfl : fill_len p w = ⌊(w : ℚ) * p / 100⌋ := by
    unfold fill_len pyint
    rw [if_pos hq0]
  have hub : fill_len p w ≤ (w : ℤ) := by
    rw [hfl]
    have h : (w : ℚ) * p / 100 ≤ (w : ℚ) := by
      rw [div_le_iff₀ (by norm_num)]
      nlinarith [Nat.cast_nonneg (α := ℚ) w]
    calc ⌊(w : ℚ) * p / 100⌋ ≤ ⌊(w : ℚ)⌋ := Int.floor_le_floor h
      _ = (w : ℤ) := by rw [Int.floor_natCast]
  have hlb : 0 ≤ fill_len p w := by
    rw [hfl]
    exact Int.floor_nonneg.mpr hq0
  have htn : (fill_len p w).toNat ≤ w := by omega
  refine ⟨htn, by omega, ?_, fun h => by rw [bar_color, if_pos h],
    fun ha hb => ?_, fun h => ?_⟩
  · show bar_color p ++ pyrep '█' (fill_len p w) ++ C_GRAY
        ++ pyrep '░' ((w : ℤ) - fill_len p w) ++ RESET ++ " "
        ++ bar_color p ++ pyrjust (toString (pyint p)) 3 ++ "%" ++ RESET = _
    have hcnt : ((w : ℤ) - fill_len p w).toNat = w - (fill_len p w).toNat := by
      omega
    rw [pyrep, pyrep, hcnt]
  · rw [bar_color, if_neg (by linarith), if_pos hb]
  · rw [bar_color, if_neg (by linarith), if_neg (by linarith)]

/-- Witness for C10 at percent 80 and width 15 (12 filled, 3 empty,
gold). -/
theorem draw_bar_cells_witness :
    (fill_len 80 15).toNat ≤ 15 ∧ bar_color 80 = C_GOLD ∧
      (fill_len 80 15).toNat = 12 := by
  have h := draw_bar_cells 80 15 (by norm_num) (by norm_num)
  exact ⟨h.1, h.2.2.2.2.1 (by norm_num) (by norm_num),
    by rw [show fill_len 80 15 = 12 by norm_num [fill_len, pyint]]; rfl⟩

/-- C7: `get_gh_data` never reorders the records produced by the
external query: whenever the stripped output is non-empty, joining the
returned records back with a newline reproduces the stripped output
verbatim (so the records are its lines, in source order); and an empty
(or all-whitespace) output yields the empty list. -/
theorem get_gh_data_order (raw : List Char) :
    (pystrip raw = [] → get_gh_data (.ok raw) = []) ∧
    (pystrip raw ≠ [] →
      pyjoin '\n' (get_gh_data (.ok raw)) = pystrip raw ∧
        get_gh_data (.ok raw) ≠ []) := by
  constructor
  · intro h
    show (if pystrip raw ≠ [] then pysplit '\n' (pystrip raw) else []) = []
    rw [h]
    simp
  · intro h
    show pyjoin '\n'
          (if pystrip raw ≠ [] then pysplit '\n' (pystrip raw) else []) =
        pystrip raw ∧
      (if pystrip raw ≠ [] then pysplit '\n' (pystrip raw) else []) ≠ []
    rw [if_pos h]
    exact ⟨pyjoin_pysplit '\n' (pystrip raw), pysplit_ne_nil '\n' (pystrip raw)⟩

/-- Witness for C7: two records come back in source order from the raw
output consisting of the three characters a, newline, b, and an
all-whitespace output yields no records. -/
theorem get_gh_data_order_witness :
    pyjoin '\n' (get_gh_data (.ok ['a', '\n', 'b'])) = ['a', '\n', 'b'] ∧
      get_gh_data (.ok [' ', ' ']) = [] :=
  ⟨((get_gh_data_order ['a', '\n', 'b']).2 (by decide)).1,
    (get_gh_data_order [' ', ' ']).1 (by decide)⟩

/-- C6: for every state of the project root, `get_recent_projects`
returns records ordered most-recent-first by last-modified time, at most
3 of them, and the returned records together with the cut-off remainder
are exactly the discovered git repository records (so every returned
record is a discovered one). When the root does not exist, the result is
empty. -/
theorem get_recent_projects_spec (rootEx : Bool) (entries : List DirEntry) :
    (get_recent_projects rootEx entries).Pairwise
      (fun a b => b.time ≤ a.time) ∧
    (get_recent_projects rootEx entries).length ≤ 3 ∧
    (rootEx = false → get_recent_projects rootEx entries = []) ∧
    ∃ rest,
      (get_recent_projects rootEx entries ++ rest).Perm
        ((entries.filter fun e => e.is_dir && e.has_git).map
          fun e => ({ name := e.name, time := e.mtime } : Project)) := by
  cases rootEx with
  | false =>
    refine ⟨by simp [get_recent_projects], by simp [get_recent_projects],
      fun _ => rfl, ?_⟩
    exact ⟨(entries.filter fun e => e.is_dir && e.has_git).map
      fun e => ({ name := e.name, time := e.mtime } : Project),
      by simp [get_recent_projects]⟩
  | true =>
    have hred : get_recent_projects true entries =
        (((entries.filter fun e => e.is_dir && e.has_git).map
            (fun e => ({ name := e.name, time := e.mtime } : Project))).mergeSort
          fun a b => decide (b.time ≤ a.time)).take 3 := rfl
    set L := (entries.filter fun e => e.is_dir && e.has_git).map
      fun e => ({ name := e.name, time := e.mtime } : Project) with hLdef
    have htrans : ∀ a b c : Project,
        decide (b.time ≤ a.time) = true → decide (c.time ≤ b.time) = true →
          decide (c.time ≤ a.time) = true := fun a b c h1 h2 =>
      decide_eq_true (le_trans (of_decide_eq_true h2) (of_decide_eq_true h1))
    have htotal : ∀ a b : Project,
        (decide (b.time ≤ a.time) || decide (a.time ≤ b.time)) = true := by
      intro a b
      rcases le_total b.time a.time with h | h <;> simp [h]
    have hs := List.sorted_mergeSort htrans htotal L
    have hs2 : (L.mergeSort fun a b => decide (b.time ≤ a.time)).Pairwise
        fun a b : Project => b.time ≤ a.time :=
      hs.imp fun h => of_decide_eq_true h
    refine ⟨?_, ?_, fun h => by simp at h, ?_⟩
    · rw [hred]
      exact hs2.sublist (List.take_sublist 3 _)
    · rw [hred]
      exact List.length_take_le 3 _
    · refine ⟨(L.mergeSort fun a b => decide (b.time ≤ a.time)).drop 3, ?_⟩
      rw [hred, List.take_append_drop]
      exact List.mergeSort_perm L _

/-- Witness for C6: a missing project root yields no records. -/
theorem get_recent_projects_spec_witness :
    get_recent_projects false [] = [] :=
  (get_recent_projects_spec false []).2.2.1 rfl

/-- C3: whatever interleaving the five probe threads complete in, after
`show_dashboard` has joined all of them the shared dict handed to the
rendering code equals `finalData r`: exactly 5 slots, with the fixed
keys in their fixed insertion order, each populated with the probe's
result (every probe function is total, so every slot value is a terminal
result). Rendering only ever reads this post-join state. -/
theorem snapshot_complete (r : Results) (order : List (String × Val))
    (h : order.Perm (writes r)) :
    snapshot order = finalData r ∧
    (snapshot order).length = 5 ∧
    (snapshot order).map Prod.fst =
      ["prs", "issues", "projects", "online", "handle"] ∧
    dictLookup "prs" (snapshot order) = some (.vLines r.prs) ∧
    dictLookup "issues" (snapshot order) = some (.vLines r.issues) ∧
    dictLookup "projects" (snapshot order) = some (.vProjects r.projects) ∧
    dictLookup "online" (snapshot order) = some (.vBool r.online) ∧
    dictLookup "handle" (snapshot order) = some (.vStr r.handle) := by
  rw [snapshot_eq_finalData r order h]
  exact ⟨rfl, rfl, rfl, rfl, rfl, rfl, rfl, rfl⟩

/-- Witness for C3 with a concrete cycle result and the source order of
thread completion. -/
theorem snapshot_complete_witness :
    snapshot (writes ⟨true, "dev", [], [['x']], []⟩) =
      finalData ⟨true, "dev", [], [['x']], []⟩ :=
  (snapshot_complete ⟨true, "dev", [], [['x']], []⟩ _ (List.Perm.refl _)).1

/-- C8: two runs of the aggregation over the same registry with the same
(deterministic) probe results produce identical dicts with identical
keys in identical order, regardless of the interleavings in which the
probe threads completed in either run. -/
theorem snapshot_order_stable (r : Results) (o₁ o₂ : List (String × Val))
    (h₁ : o₁.Perm (writes r)) (h₂ : o₂.Perm (writes r)) :
    snapshot o₁ = snapshot o₂ ∧
    (snapshot o₁).map Prod.fst = (snapshot o₂).map Prod.fst := by
  rw [snapshot_eq_finalData r o₁ h₁, snapshot_eq_finalData r o₂ h₂]
  exact ⟨rfl, rfl⟩

/-- Witness for C8: a run whose threads completed in reverse order
matches a run in source order. -/
theorem snapshot_order_stable_witness :
    snapshot ((writes ⟨true, "dev", [], [['x']], []⟩).reverse) =
      snapshot (writes ⟨true, "dev", [], [['x']], []⟩) :=
  (snapshot_order_stable ⟨true, "dev", [], [['x']], []⟩ _ _
    (List.reverse_perm _) (List.Perm.refl _)).1

/-- C4: every probe absorbs its errors at its own boundary — a failing
ping subprocess makes `check_connection` return `False` (not raise), a
failing `gh` subprocess makes `get_gh_data` return `[]` (not raise) —
and a probe's failure leaves every other probe's slot of the final dict
untouched. -/
theorem probe_errors_absorbed :
    check_connection .error = false ∧
    get_gh_data .error = [] ∧
    ∀ (r : Results) (k : String), k ≠ "prs" →
      dictLookup k (snapshot (writes { r with prs := get_gh_data .error })) =
        dictLookup k (snapshot (writes r)) := by
  refine ⟨rfl, rfl, ?_⟩
  intro r k hk
  rw [snapshot_eq_finalData _ _ (List.Perm.refl _),
    snapshot_eq_finalData _ _ (List.Perm.refl _)]
  show dictLookup k (finalData { r with prs := [] }) =
    dictLookup k (finalData r)
  have hpk : ¬("prs" = k) := fun e => hk e.symm
  simp only [finalData, dictLookup, if_neg hpk]

/-- Witness for C4: with the pull-request probe failed, the online slot
still holds the connectivity probe's result. -/
theorem probe_errors_absorbed_witness :
    dictLookup "online"
        (snapshot (writes
          (Results.mk true "dev" [] (get_gh_data .error) []))) =
      dictLookup "online"
        (snapshot (writes (Results.mk true "dev" [] [['x']] []))) :=
  probe_errors_absorbed.2.2 (Results.mk true "dev" [] [['x']] [])
    "online" (by decide)

/-- C1 fails on the code: `show_dashboard` joins every probe thread with
no timeout, so a probe that never returns blocks the cycle forever — the
wait phase yields no completion instant at all, hence does not complete
within the bound 1000000 (or any other). There is no deadline and no
TimedOut marker anywhere in `dashboard.py`. -/
theorem no_deadline_counterexample :
    cycleCompletion (some 1) (some 1) (some 1) none (some 1) = none ∧
    ¬ completesWithin
        (cycleCompletion (some 1) (some 1) (some 1) none (some 1))
        1000000 := by
  refine ⟨rfl, ?_⟩
  rintro ⟨t, ht, -⟩
  rw [show cycleCompletion (some 1) (some 1) (some 1) none (some 1) =
    none from rfl] at ht
  exact Option.noConfusion ht

/-- C1 amended: the join loop of `show_dashboard` waits for all five
probe threads unboundedly — when every probe completes, the wait phase
completes at the maximum of the five completion instants, and when any
probe never returns, the wait phase never completes. -/
theorem join_all_unbounded :
    (∀ a b c d e : ℕ,
      cycleCompletion (some a) (some b) (some c) (some d) (some e) =
        some (max (max (max (max (max 0 a) b) c) d) e)) ∧
    (∀ a b c d e : Option ℕ,
      a = none ∨ b = none ∨ c = none ∨ d = none ∨ e = none →
      cycleCompletion a b c d e = none) := by
  constructor
  · intro a b c d e
    rfl
  · intro a b c d e h
    rcases a with _ | a <;> rcases b with _ | b <;> rcases c with _ | c <;>
      rcases d with _ | d <;> rcases e with _ | e <;>
      simp_all [cycleCompletion, joinAll]

/-- Witness for C1 amended: the hanging prs probe of the concrete
scenario makes the wait phase yield no completion instant. -/
theorem join_all_unbounded_witness :
    cycleCompletion (some 5) (some 8) (some 2) none (some 3) = none :=
  join_all_unbounded.2 (some 5) (some 8) (some 2) none (some 3)
    (Or.inr (Or.inr (Or.inr (Or.inl rfl))))

/-- C5 fails on the code: the five probe threads of `show_dashboard`
write into the shared `data` dict through bare `data.update({...})`
calls — no thread holds any lock while writing (no `threading.Lock` or
other synchronisation primitive occurs in `dashboard.py`), and the
writes come from five threads, not from a single writer. -/
theorem no_mutual_exclusion_counterexample : ¬ mutualExclusionClaim := by
  decide

/-- C5 amended: every write into the shared dict is an unsynchronised
`dict.update` (no thread holds a lock while writing), and the writes are
disjoint — the five threads write five pairwise-distinct keys, one key
per thread, so each slot has a single writer even though the container
itself is written from five concurrent threads. -/
theorem unsynchronised_disjoint_writes :
    (∀ t ∈ show_dashboard_threads, t.heldLocks = []) ∧
    (show_dashboard_threads.map ThreadSpec.key).Nodup ∧
    show_dashboard_threads.length = 5 := by
  refine ⟨?_, by decide, rfl⟩
  intro t ht
  fin_cases ht <;> rfl

/-- Witness for C5 amended at the connectivity-probe thread. -/
theorem unsynchronised_disjoint_writes_witness :
    (⟨"online", []⟩ : ThreadSpec).heldLocks = [] :=
  unsynchronised_disjoint_writes.1 ⟨"online", []⟩ (by decide)

end Dashboard
